import Mathlib

/-!
Shallow embedding of the dev-events slug-lookup endpoint and its
connection memoizer.

Source files embedded:
- `src/app/api/events/[slug]/route.ts` : the `GET` handler (slug validation,
  database lookup, response envelopes), embedded as a pure function `GET`
  from the slug route parameter and the behaviour of its two collaborators
  (connection acquisition and the `Event.findOne` query) to the HTTP
  response together with the list of I/O actions performed.
- `src/unnamed/part_000` (the mongoose connection module) : the module-level
  `MONGODB_URI` check, embedded as `moduleInit`, and the memoized
  `connectDB`, embedded as a state machine over the process-wide cache.
  `connectDB` runs synchronously (no suspension point) up to the single
  `await cached.promise`; that synchronous prefix is `phaseA`, and the
  continuation after the awaited promise settles is `phaseB`.  Under the
  cooperative single-threaded scheduling of the host, an arbitrary
  interleaving of N concurrent callers is therefore a sequence of atomic
  `phaseA` steps followed, once the single attempt settles, by a sequence of
  atomic `phaseB` steps, which `runPhaseAs` and `runPhaseBs` iterate.
-/

/-- Characters accepted by the character class `[a-z0-9]` of the handler's
`slugPattern` regular expression, decided on the character's code point. -/
def isLowerAlnum (c : Char) : Bool :=
  (97 ≤ c.toNat && c.toNat ≤ 122) || (48 ≤ c.toNat && c.toNat ≤ 57)

mutual

/-- Matcher for the regular expression `^[a-z0-9]+(?:-[a-z0-9]+)*$` positioned
at the start of a segment: at least one `[a-z0-9]` character is required. -/
def matchSeg : List Char → Bool
  | [] => false
  | c :: rest => isLowerAlnum c && matchSegTail rest

/-- Matcher continuing after the first character of a segment: further
`[a-z0-9]` characters, or a hyphen opening a fresh nonempty segment, or the
end of the input. -/
def matchSegTail : List Char → Bool
  | [] => true
  | c :: rest =>
      if c = '-' then matchSeg rest
      else isLowerAlnum c && matchSegTail rest

end

/-- The route handler's slug format test
`/^[a-z0-9]+(?:-[a-z0-9]+)*$/.test(slug)`. -/
def slugPattern (s : String) : Bool := matchSeg s.data

/-- Whitespace characters stripped by JavaScript `String.prototype.trim`
(the ASCII ones; slugs never contain the remaining Unicode ones). -/
def isWS (c : Char) : Bool :=
  c.toNat = 32 || c.toNat = 9 || c.toNat = 10 ||
    c.toNat = 13 || c.toNat = 11 || c.toNat = 12

/-- JavaScript `slug.trim()`: strip whitespace from both ends. -/
def jsTrim (s : String) : String :=
  String.mk (((s.data.dropWhile isWS).reverse.dropWhile isWS).reverse)

/-- An Event document: a unique `slug` field plus fields this boundary never
interprets, passed through verbatim. -/
structure EventDoc where
  slug : String
  fields : List (String × String)
deriving DecidableEq, Repr

/-- The JSON response produced by the handler: HTTP status, the `success`
flag, the optional `error` message and the optional `event` payload. -/
structure Response where
  status : Nat
  success : Bool
  error : Option String
  event : Option EventDoc
deriving DecidableEq, Repr

/-- The 400 body for an absent or empty slug parameter. -/
def respMissing : Response :=
  ⟨400, false, some "Invalid or missing slug parameter", none⟩

/-- The 400 body for a slug failing the format pattern. -/
def respMalformed : Response :=
  ⟨400, false,
    some "Invalid slug format. Slug must be lowercase alphanumeric with hyphens.",
    none⟩

/-- The 404 body when no document matches the slug. -/
def respNotFound : Response :=
  ⟨404, false, some "Event not found", none⟩

/-- The generic 500 body produced by the catch block. -/
def respServerError : Response :=
  ⟨500, false,
    some "An unexpected error occurred while fetching the event", none⟩

/-- The 200 body carrying the matching document verbatim. -/
def respOk (ev : EventDoc) : Response := ⟨200, true, none, some ev⟩

/-- I/O actions the handler can perform, recorded in order. -/
inductive DbAction where
  | ioConnect
  | ioQuery
deriving DecidableEq, Repr

/-- Behaviour of the handler's collaborators during one request: whether
`connectDB()` resolves or rejects (with which message), whether the
`Event.findOne` query resolves or rejects, and the store contents. -/
structure Env where
  connectResult : Except String Unit
  queryResult : Except String Unit
  store : List EventDoc
deriving Repr

/-- `Event.findOne({ slug })`: the first stored document whose `slug` field
equals the argument, if any. -/
def findOne (store : List EventDoc) (slug : String) : Option EventDoc :=
  store.find? (fun d => d.slug == slug)

/-- The `GET` handler of `src/app/api/events/[slug]/route.ts`, as a function
of the route's slug parameter (`none` models an absent/undefined parameter;
the `typeof slug !== "string"` disjunct of the source guard cannot fire in
this typed embedding) and the collaborator behaviour.  Returns the response
together with the list of I/O actions performed before responding. -/
def GET : Option String → Env → Response × List DbAction
  | none, _ => (respMissing, [])
  | some slug, env =>
    if slug = "" ∨ jsTrim slug = "" then (respMissing, [])
    else if ! slugPattern slug then (respMalformed, [])
    else
      match env.connectResult with
      | .error _ => (respServerError, [.ioConnect])
      | .ok _ =>
        match env.queryResult with
        | .error _ => (respServerError, [.ioConnect, .ioQuery])
        | .ok _ =>
          match findOne env.store slug with
          | none => (respNotFound, [.ioConnect, .ioQuery])
          | some ev => (respOk ev, [.ioConnect, .ioQuery])

/-- The message of the error thrown when `MONGODB_URI` is not defined, both
at module load and inside `connectDB`. -/
def uriErrorMsg : String :=
  "Please define the MONGODB_URI environment variable inside .env"

/-- JavaScript falsiness of the `process.env.MONGODB_URI` value: the variable
is unset, or set to the empty string. -/
def jsFalsyEnvVar (v : Option String) : Bool :=
  match v with
  | none => true
  | some s => s = ""

/-- Module-level initialization of the mongoose module: read `MONGODB_URI`
from the environment and throw if it is falsy, otherwise keep the value. -/
def moduleInit (envVar : Option String) : Except String String :=
  if jsFalsyEnvVar envVar then .error uriErrorMsg
  else .ok (envVar.getD "")

/-- The process-wide cache `{ conn, promise }`.  Connection handles and
pending-promise identities are modelled as natural numbers. -/
structure MongooseCache where
  conn : Option Nat
  promise : Option Nat
deriving DecidableEq, Repr

/-- The cache together with a counter of `mongoose.connect` calls made so
far; the counter doubles as the identity of the next attempt's promise. -/
structure SysState where
  cache : MongooseCache
  attemptsStarted : Nat
deriving DecidableEq, Repr

/-- The state at process start: no connection, no pending attempt. -/
def coldState : SysState := ⟨⟨none, none⟩, 0⟩

/-- Where a caller of `connectDB` stands after its synchronous prefix. -/
inductive PhaseAResult where
  | done (h : Nat)
  | waiting (a : Nat)
  | threw (msg : String)
deriving DecidableEq, Repr

/-- The synchronous prefix of `connectDB` (everything before
`await cached.promise`): return the cached connection if set; otherwise, if
no attempt is pending, check `MONGODB_URI` (throwing when falsy) and store a
fresh `mongoose.connect` promise in the cache; then await the pending
promise.  No suspension point occurs inside this prefix, so it executes
atomically under cooperative scheduling. -/
def phaseA (uriPresent : Bool) (s : SysState) : PhaseAResult × SysState :=
  match s.cache.conn with
  | some h => (.done h, s)
  | none =>
    match s.cache.promise with
    | some a => (.waiting a, s)
    | none =>
      if uriPresent then
        (.waiting s.attemptsStarted,
          ⟨⟨none, some s.attemptsStarted⟩, s.attemptsStarted + 1⟩)
      else (.threw uriErrorMsg, s)

/-- The continuation of `connectDB` after the awaited promise settles with
outcome `o`: on success cache the handle in `conn` and return it; on failure
reset `promise` to null and rethrow. -/
def phaseB (o : Except String Nat) (s : SysState) : Except String Nat × SysState :=
  match o with
  | .ok m => (.ok m, ⟨⟨some m, s.cache.promise⟩, s.attemptsStarted⟩)
  | .error e => (.error e, ⟨⟨s.cache.conn, none⟩, s.attemptsStarted⟩)

/-- Run the atomic synchronous prefixes of `n` concurrent callers, in
arrival order (callers are symmetric, so this covers every interleaving). -/
def runPhaseAs (uriPresent : Bool) : Nat → SysState → List PhaseAResult × SysState
  | 0, s => ([], s)
  | n + 1, s =>
    let p := phaseA uriPresent s
    let q := runPhaseAs uriPresent n p.2
    (p.1 :: q.1, q.2)

/-- Resume `n` callers that were awaiting the settled promise, each observing
the same settlement outcome `o`, in some order. -/
def runPhaseBs (o : Except String Nat) : Nat → SysState → List (Except String Nat) × SysState
  | 0, s => ([], s)
  | n + 1, s =>
    let p := phaseB o s
    let q := runPhaseBs o n p.2
    (p.1 :: q.1, q.2)

/-- One complete uninterleaved call to `connectDB`: run the synchronous
prefix, and if it left the caller awaiting the pending promise, resume it
with that promise's settlement outcome `o`. -/
def connectDB (uriPresent : Bool) (o : Except String Nat) (s : SysState) :
    Except String Nat × SysState :=
  match phaseA uriPresent s with
  | (.done h, s1) => (.ok h, s1)
  | (.waiting _, s1) => phaseB o s1
  | (.threw e, s1) => (.error e, s1)

/-- Environment with both collaborators succeeding and an empty store. -/
def envOkEmpty : Env := ⟨.ok (), .ok (), []⟩

/-- Environment whose connection acquisition rejects. -/
def envConnFail : Env := ⟨.error "boom", .ok (), []⟩

/-- Environment whose store holds the one event used as concrete witness. -/
def envOneEvent : Env :=
  ⟨.ok (), .ok (), [⟨"summer-fest-2024", [("name", "Fest")]⟩]⟩

lemma isLowerAlnum_not_ws (c : Char) (h : isLowerAlnum c = true) :
    isWS c = false := by
  simp only [isLowerAlnum, isWS, Bool.or_eq_true, Bool.and_eq_true,
    decide_eq_true_eq] at h
  simp only [isWS, Bool.or_eq_false_iff, decide_eq_false_iff_not]
  omega

lemma slugPattern_head (s : String) (h : slugPattern s = true) :
    ∃ c rest, s.data = c :: rest ∧ isLowerAlnum c = true := by
  unfold slugPattern at h
  cases hd : s.data with
  | nil => rw [hd] at h; simp [matchSeg] at h
  | cons c rest =>
    rw [hd] at h
    simp only [matchSeg, Bool.and_eq_true] at h
    exact ⟨c, rest, rfl, h.1⟩

lemma jsTrim_ne_of_head (s : String) (c : Char) (rest : List Char)
    (hd : s.data = c :: rest) (hc : isWS c = false) : ¬ jsTrim s = "" := by
  intro h
  have hlist : ((s.data.dropWhile isWS).reverse.dropWhile isWS).reverse = [] := by
    have h2 := congrArg String.data h
    simpa [jsTrim] using h2
  rw [List.reverse_eq_nil_iff, List.dropWhile_eq_nil_iff] at hlist
  have hdrop : s.data.dropWhile isWS = c :: rest := by
    rw [hd]; simp [List.dropWhile_cons, hc]
  have hcmem : c ∈ (s.data.dropWhile isWS).reverse := by
    rw [hdrop]; simp
  have h3 := hlist c hcmem
  rw [hc] at h3
  exact Bool.false_ne_true h3

lemma slug_guard_false (s : String) (h : slugPattern s = true) :
    ¬ (s = "" ∨ jsTrim s = "") := by
  obtain ⟨c, rest, hd, hc⟩ := slugPattern_head s h
  rintro (h1 | h1)
  · rw [h1] at hd
    exact List.cons_ne_nil c rest hd.symm
  · exact jsTrim_ne_of_head s c rest hd (isLowerAlnum_not_ws c hc) h1

/-- Claim C3: for every slug matching the pattern and present in the store,
with the connection and the query resolving, the handler returns HTTP 200
with body success = true and event = the matching document verbatim. -/
theorem claim_C3 (slug : String) (env : Env) (d : EventDoc)
    (hpat : slugPattern slug = true)
    (hconn : env.connectResult = .ok ())
    (hq : env.queryResult = .ok ())
    (hfind : findOne env.store slug = some d) :
    GET (some slug) env = (respOk d, [.ioConnect, .ioQuery]) := by
  simp only [GET]
  rw [if_neg (slug_guard_false slug hpat), hpat, hconn, hq, hfind]
  rfl

/-- Witness for C3 at slug "summer-fest-2024" in a one-event store. -/
theorem claim_C3_witness :
    slugPattern "summer-fest-2024" = true ∧
      envOneEvent.connectResult = .ok () ∧
      envOneEvent.queryResult = .ok () ∧
      findOne envOneEvent.store "summer-fest-2024"
        = some ⟨"summer-fest-2024", [("name", "Fest")]⟩ ∧
      GET (some "summer-fest-2024") envOneEvent
        = (respOk ⟨"summer-fest-2024", [("name", "Fest")]⟩,
            [.ioConnect, .ioQuery]) :=
  ⟨by decide, rfl, rfl, by decide,
    claim_C3 "summer-fest-2024" envOneEvent
      ⟨"summer-fest-2024", [("name", "Fest")]⟩ (by decide) rfl rfl (by decide)⟩

/-- Claim C4: every string failing the pattern is answered with HTTP 400 and
an empty I/O trace: no connection acquisition and no store query. -/
theorem claim_C4 (s : String) (env : Env) (h : slugPattern s = false) :
    (GET (some s) env).1.status = 400 ∧ (GET (some s) env).2 = [] := by
  simp only [GET]
  by_cases hg : s = "" ∨ jsTrim s = ""
  · rw [if_pos hg]; exact ⟨rfl, rfl⟩
  · rw [if_neg hg, h]; exact ⟨rfl, rfl⟩

/-- Witness for C4 at the malformed slug "Foo". -/
theorem claim_C4_witness :
    slugPattern "Foo" = false ∧
      ((GET (some "Foo") envOkEmpty).1.status = 400 ∧
        (GET (some "Foo") envOkEmpty).2 = []) :=
  ⟨by decide, claim_C4 "Foo" envOkEmpty (by decide)⟩

/-- Claim C5: whenever connection acquisition or the store query rejects,
on a slug that reaches them, the handler answers with the one fixed 500
body, independent of the rejection's message: no exception detail can reach
the client. -/
theorem claim_C5 (slug : String) (env : Env)
    (hpat : slugPattern slug = true)
    (hfail : (∃ e, env.connectResult = .error e) ∨
      (∃ e, env.queryResult = .error e)) :
    (GET (some slug) env).1 = respServerError := by
  simp only [GET]
  rw [if_neg (slug_guard_false slug hpat), hpat]
  cases hc : env.connectResult with
  | error e => rfl
  | ok u =>
    cases hq : env.queryResult with
    | error e => rfl
    | ok u2 =>
      exfalso
      rcases hfail with ⟨e, he⟩ | ⟨e, he⟩
      · rw [hc] at he; exact Except.noConfusion he
      · rw [hq] at he; exact Except.noConfusion he

/-- Witness for C5 at slug "abc" against a rejecting connection. -/
theorem claim_C5_witness :
    slugPattern "abc" = true ∧
      (GET (some "abc") envConnFail).1 = respServerError :=
  ⟨by decide, claim_C5 "abc" envConnFail (by decide) (Or.inl ⟨"boom", rfl⟩)⟩

/-- Claim C8: a slug matching the pattern with no matching document, with
both collaborators resolving, is answered with HTTP 404 and the body
success = false, error = "Event not found". -/
theorem claim_C8 (slug : String) (env : Env)
    (hpat : slugPattern slug = true)
    (hconn : env.connectResult = .ok ())
    (hq : env.queryResult = .ok ())
    (hfind : findOne env.store slug = none) :
    GET (some slug) env = (respNotFound, [.ioConnect, .ioQuery]) := by
  simp only [GET]
  rw [if_neg (slug_guard_false slug hpat), hpat, hconn, hq, hfind]
  rfl

/-- Witness for C8 at the valid slug "nonexistent-event" on an empty store. -/
theorem claim_C8_witness :
    slugPattern "nonexistent-event" = true ∧
      findOne envOkEmpty.store "nonexistent-event" = none ∧
      GET (some "nonexistent-event") envOkEmpty
        = (respNotFound, [.ioConnect, .ioQuery]) :=
  ⟨by decide, rfl,
    claim_C8 "nonexistent-event" envOkEmpty (by decide) rfl rfl rfl⟩

/-- Claim C9: an absent slug parameter, the empty string, and any string
trimming to empty are all answered with the 400 missing-slug body, whose
message differs from the malformed-format message; the empty string gets the
missing message because the emptiness guard precedes the pattern guard. -/
theorem claim_C9 (env : Env) (s : String) (hs : jsTrim s = "") :
    GET none env = (respMissing, []) ∧
    GET (some "") env = (respMissing, []) ∧
    GET (some s) env = (respMissing, []) ∧
    respMissing.error ≠ respMalformed.error ∧
    respMissing.status = 400 := by
  refine ⟨rfl, rfl, ?_, by decide, rfl⟩
  simp only [GET]
  rw [if_pos (Or.inr hs)]

/-- Witness for C9 at the whitespace-only slug "   ". -/
theorem claim_C9_witness :
    jsTrim "   " = "" ∧
      (GET none envOkEmpty = (respMissing, []) ∧
        GET (some "") envOkEmpty = (respMissing, []) ∧
        GET (some "   ") envOkEmpty = (respMissing, []) ∧
        respMissing.error ≠ respMalformed.error ∧
        respMissing.status = 400) :=
  ⟨by decide, claim_C9 envOkEmpty "   " (by decide)⟩

/-- Claim C10: for every slug parameter and every collaborator behaviour,
the handler returns a response (the embedding is total), its status is one
of 200, 400, 404, 500, and its success flag is true exactly on 200. -/
theorem claim_C10 (slugParam : Option String) (env : Env) :
    ((GET slugParam env).1.status = 200 ∨ (GET slugParam env).1.status = 400 ∨
      (GET slugParam env).1.status = 404 ∨ (GET slugParam env).1.status = 500) ∧
    ((GET slugParam env).1.success = true ↔ (GET slugParam env).1.status = 200) := by
  cases slugParam with
  | none => exact ⟨Or.inr (Or.inl rfl), by simp [GET, respMissing]⟩
  | some s =>
    simp only [GET]
    by_cases hg : s = "" ∨ jsTrim s = ""
    · rw [if_pos hg]
      exact ⟨Or.inr (Or.inl rfl), by simp [respMissing]⟩
    · rw [if_neg hg]
      cases hp : slugPattern s with
      | false => exact ⟨Or.inr (Or.inl rfl), by simp [respMalformed]⟩
      | true =>
        cases hc : env.connectResult with
        | error e => exact ⟨Or.inr (Or.inr (Or.inr rfl)), by simp [respServerError]⟩
        | ok u =>
          cases hq : env.queryResult with
          | error e => exact ⟨Or.inr (Or.inr (Or.inr rfl)), by simp [respServerError]⟩
          | ok u2 =>
            cases hf : findOne env.store s with
            | none => exact ⟨Or.inr (Or.inr (Or.inl rfl)), by simp [respNotFound]⟩
            | some ev => exact ⟨Or.inl rfl, by simp [respOk]⟩

lemma runPhaseAs_pending (u : Bool) (m : Nat) (s : SysState) (a : Nat)
    (hc : s.cache.conn = none) (hp : s.cache.promise = some a) :
    runPhaseAs u m s = (List.replicate m (PhaseAResult.waiting a), s) := by
  induction m with
  | zero => rfl
  | succ k ih =>
    have hA : phaseA u s = (.waiting a, s) := by
      unfold phaseA; rw [hc, hp]
    simp [runPhaseAs, hA, ih, List.replicate_succ]

lemma phaseB_fst (o : Except String Nat) (s : SysState) : (phaseB o s).1 = o := by
  cases o <;> rfl

lemma runPhaseBs_fst (o : Except String Nat) (n : Nat) (s : SysState) :
    (runPhaseBs o n s).1 = List.replicate n o := by
  induction n generalizing s with
  | zero => rfl
  | succ k ih => simp [runPhaseBs, phaseB_fst, ih, List.replicate_succ]

/-- Claim C1: running any number n ≥ 1 of concurrent cold-start callers of
`connectDB` starts exactly one `mongoose.connect` attempt (the attempt
counter ends at 1), leaves every caller awaiting that same attempt (attempt
0), and when the attempt settles with outcome o, every caller observes that
same outcome. -/
theorem claim_C1 (n : Nat) (o : Except String Nat) (hn : 1 ≤ n) :
    (runPhaseAs true n coldState).1 = List.replicate n (PhaseAResult.waiting 0) ∧
    (runPhaseAs true n coldState).2.attemptsStarted = 1 ∧
    (runPhaseBs o n ((runPhaseAs true n coldState).2)).1 = List.replicate n o := by
  obtain ⟨k, rfl⟩ : ∃ k, n = k + 1 := ⟨n - 1, (Nat.succ_pred_eq_of_pos hn).symm⟩
  have h1 : phaseA true coldState = (.waiting 0, ⟨⟨none, some 0⟩, 1⟩) := rfl
  have h2 := runPhaseAs_pending true k ⟨⟨none, some 0⟩, 1⟩ 0 rfl rfl
  refine ⟨?_, ?_, runPhaseBs_fst o (k + 1) _⟩
  · simp [runPhaseAs, h1, h2, List.replicate_succ]
  · simp [runPhaseAs, h1, h2]

/-- Witness for C1 with three concurrent callers and a successful attempt. -/
theorem claim_C1_witness :
    (runPhaseAs true 3 coldState).1 = List.replicate 3 (PhaseAResult.waiting 0) ∧
      (runPhaseAs true 3 coldState).2.attemptsStarted = 1 ∧
      (runPhaseBs (.ok 7) 3 ((runPhaseAs true 3 coldState).2)).1
        = List.replicate 3 (Except.ok 7) :=
  claim_C1 3 (.ok 7) (by decide)

/-- Claim C2: when the pending attempt settles with a failure, the resumed
caller propagates that failure, the cached promise is reset to unset, the
cached connection stays unset (the failed handle is never stored), and a
subsequent call starts a fresh establishment attempt. -/
theorem claim_C2 (s : SysState) (e : String) (hconn : s.cache.conn = none) :
    (phaseB (.error e) s).1 = .error e ∧
    (phaseB (.error e) s).2.cache.promise = none ∧
    (phaseB (.error e) s).2.cache.conn = none ∧
    (phaseA true (phaseB (.error e) s).2).1
      = .waiting s.attemptsStarted ∧
    (phaseA true (phaseB (.error e) s).2).2.attemptsStarted
      = s.attemptsStarted + 1 := by
  have hst : (phaseB (Except.error e) s).2 = ⟨⟨none, none⟩, s.attemptsStarted⟩ := by
    simp [phaseB, hconn]
  refine ⟨rfl, by rw [hst], by rw [hst], by rw [hst]; rfl, by rw [hst]; rfl⟩

/-- Witness for C2 from the state with one pending attempt and no
connection. -/
theorem claim_C2_witness :
    (phaseB (.error "boom") ⟨⟨none, some 0⟩, 1⟩).1 = Except.error "boom" ∧
      (phaseB (.error "boom") ⟨⟨none, some 0⟩, 1⟩).2.cache.promise = none ∧
      (phaseB (.error "boom") ⟨⟨none, some 0⟩, 1⟩).2.cache.conn = none ∧
      (phaseA true (phaseB (.error "boom") ⟨⟨none, some 0⟩, 1⟩).2).1
        = .waiting 1 ∧
      (phaseA true (phaseB (.error "boom") ⟨⟨none, some 0⟩, 1⟩).2).2.attemptsStarted
        = 1 + 1 :=
  claim_C2 ⟨⟨none, some 0⟩, 1⟩ "boom" rfl

lemma connectDB_cached (s : SysState) (h : Nat) (hc : s.cache.conn = some h)
    (u : Bool) (o : Except String Nat) : connectDB u o s = (.ok h, s) := by
  have hA : phaseA u s = (.done h, s) := by
    unfold phaseA; rw [hc]
  unfold connectDB; rw [hA]

lemma connectDB_ok_conn (s s1 : SysState) (u : Bool) (o : Except String Nat)
    (h : Nat) (hrun : connectDB u o s = (.ok h, s1)) :
    s1.cache.conn = some h := by
  obtain ⟨⟨conn, promise⟩, k⟩ := s
  cases conn with
  | some h2 =>
    simp only [connectDB, phaseA] at hrun
    obtain ⟨h1, h2eq⟩ := Prod.mk.injEq .. ▸ hrun
    rw [← h2eq]
    simp at h1
    rw [h1]
  | none =>
    cases promise with
    | some a =>
      cases o with
      | ok m =>
        simp only [connectDB, phaseA, phaseB] at hrun
        obtain ⟨h1, h2eq⟩ := Prod.mk.injEq .. ▸ hrun
        rw [← h2eq]
        simp at h1
        rw [h1]
      | error e => simp [connectDB, phaseA, phaseB] at hrun
    | none =>
      cases u with
      | false => simp [connectDB, phaseA] at hrun
      | true =>
        cases o with
        | ok m =>
          simp only [connectDB, phaseA, phaseB] at hrun
          obtain ⟨h1, h2eq⟩ := Prod.mk.injEq .. ▸ hrun
          rw [← h2eq]
          simp at h1
          rw [h1]
        | error e => simp [connectDB, phaseA, phaseB] at hrun

/-- Claim C6: any call to `connectDB` that returns a handle leaves that
handle stored in the cache, and a subsequent call — whatever the
environment or attempt outcome would be — returns the identical handle with
the state unchanged: no further establishment is started. -/
theorem claim_C6 (s : SysState) (u : Bool) (o : Except String Nat) (h : Nat)
    (s1 : SysState) (hrun : connectDB u o s = (.ok h, s1))
    (u2 : Bool) (o2 : Except String Nat) :
    s1.cache.conn = some h ∧ connectDB u2 o2 s1 = (.ok h, s1) := by
  have hc := connectDB_ok_conn s s1 u o h hrun
  exact ⟨hc, connectDB_cached s1 h hc u2 o2⟩

/-- Witness for C6: a first successful call from the cold state, then a
second call returning the same handle 5 unchanged. -/
theorem claim_C6_witness :
    connectDB true (Except.ok 5) coldState
        = (.ok 5, ⟨⟨some 5, some 0⟩, 1⟩) ∧
      ((⟨⟨some 5, some 0⟩, 1⟩ : SysState).cache.conn = some 5 ∧
        connectDB false (Except.error "down") ⟨⟨some 5, some 0⟩, 1⟩
          = (.ok 5, ⟨⟨some 5, some 0⟩, 1⟩)) :=
  ⟨rfl,
    claim_C6 coldState true (.ok 5) 5 ⟨⟨some 5, some 0⟩, 1⟩ rfl
      false (.error "down")⟩

/-- Claim C7: when `MONGODB_URI` is absent (or empty), module load throws
the configuration error, and a first-use call of `connectDB` from a state
with no connection and no pending attempt throws the same error leaving the
state unchanged — no establishment attempt is started against an empty
target. -/
theorem claim_C7 (s : SysState) (o : Except String Nat)
    (hc : s.cache.conn = none) (hp : s.cache.promise = none) :
    moduleInit none = .error uriErrorMsg ∧
    moduleInit (some "") = .error uriErrorMsg ∧
    connectDB false o s = (.error uriErrorMsg, s) := by
  refine ⟨rfl, rfl, ?_⟩
  have hA : phaseA false s = (.threw uriErrorMsg, s) := by
    unfold phaseA; rw [hc, hp]; rfl
  unfold connectDB; rw [hA]

/-- Witness for C7 at the cold state. -/
theorem claim_C7_witness :
    moduleInit none = .error uriErrorMsg ∧
      moduleInit (some "") = .error uriErrorMsg ∧
      connectDB false (Except.ok 0) coldState
        = (.error uriErrorMsg, coldState) :=
  claim_C7 coldState (.ok 0) rfl rfl
